import Mathlib

/-!
Shallow embedding of the HTTP-client core of the lidarr-api repository:
the rate-limited request gateway (`lidarr_api/client.py`), the wanted-albums
pagination aggregator (`lidarr_api/data_utils.py`, `export_wanted_albums`),
and the two caller-level `retry_with_backoff` helpers
(`bin/lidarr_search.py` and `examples/search_artist.py`).

Python exceptions are modelled by a small class hierarchy flag: in Python 3,
`KeyboardInterrupt` and `SystemExit` derive from `BaseException` but not from
`Exception`, while `requests.exceptions.RequestException`, `ConnectionError`,
`TimeoutError`, `ValueError` and `KeyError` all derive from `Exception`.
Sleeping is modelled by recording the slept durations (as exact rationals)
in a list; wall-clock time is modelled as an explicit rational parameter.
-/

set_option maxRecDepth 8000

namespace LidarrApi

/-- Exception classes relevant to the retry helpers and the gateway.
`keyboardInterrupt` and `systemExit` are the `BaseException`-only classes;
all others derive from `Exception`. -/
inductive ExcClass : Type
| requestException
| connectionError
| timeoutError
| keyboardInterrupt
| systemExit
| valueError
| keyError
| otherException
deriving DecidableEq, Repr

/-- A Python exception value: its class plus an opaque payload distinguishing
instances. -/
structure Exc : Type where
  cls : ExcClass
  payload : Nat
deriving DecidableEq, Repr

/-- True for the interrupt/cancellation classes that derive from
`BaseException` but not from `Exception`: a bare `except Exception` clause
does not catch them. -/
def systemExc (e : Exc) : Bool :=
  match e.cls with
  | .keyboardInterrupt => true
  | .systemExit => true
  | _ => false

/-- True for the classes caught by the `except (requests.exceptions.RequestException,
ConnectionError, TimeoutError)` clause of `bin/lidarr_search.py`. -/
def connectivityExc (e : Exc) : Bool :=
  match e.cls with
  | .requestException => true
  | .connectionError => true
  | .timeoutError => true
  | _ => false

/-- Outcome of one run of a retry helper: a returned value, a raised
exception, or the `TypeError` produced by the final `raise last_exception`
when `last_exception` is still `None`. -/
inductive RWBOutcome (α : Type) : Type
| ok (a : α)
| raised (e : Exc)
| raiseNoneTypeError
deriving DecidableEq, Repr

/-- A complete run of a retry helper: its outcome, how many times the wrapped
operation was invoked, and the durations slept (in order). -/
structure RWBRun (α : Type) : Type where
  outcome : RWBOutcome α
  calls : Nat
  sleeps : List ℚ
deriving DecidableEq, Repr

namespace BinSearch

/-- Loop body of `retry_with_backoff` in `src/bin/lidarr_search.py`.
`remaining` is the number of loop iterations left (`max_retries - attempt`),
`calls` the number of invocations of `func` so far (which is also the Python
`attempt` index), `wait` the current `wait_time`, `lastExc` the Python
`last_exception` variable and `sleeps` the durations slept so far.
`func` maps the attempt index to that invocation's result.
A `(KeyboardInterrupt, SystemExit)` is re-raised; a
`(RequestException, ConnectionError, TimeoutError)` is caught, and unless the
attempt is the last one the helper sleeps `wait` and multiplies the wait by
`backoff`; any other exception is not caught and propagates.  When the loop
ends, `raise last_exception` raises the stored exception, or a `TypeError`
when it is still `None`. -/
def binLoop (func : Nat → Except Exc α) (backoff : ℚ) :
    Nat → Nat → ℚ → Option Exc → List ℚ → RWBRun α
  | 0, calls, _, lastExc, sleeps =>
    match lastExc with
    | some e => ⟨.raised e, calls, sleeps⟩
    | none => ⟨.raiseNoneTypeError, calls, sleeps⟩
  | remaining + 1, calls, wait, _, sleeps =>
    match func calls with
    | .ok a => ⟨.ok a, calls + 1, sleeps⟩
    | .error e =>
      if systemExc e then ⟨.raised e, calls + 1, sleeps⟩
      else if connectivityExc e then
        if remaining = 0 then
          binLoop func backoff remaining (calls + 1) wait (some e) sleeps
        else
          binLoop func backoff remaining (calls + 1) (wait * backoff) (some e)
            (sleeps ++ [wait])
      else ⟨.raised e, calls + 1, sleeps⟩

/-- `retry_with_backoff(func, max_retries, initial_wait, backoff_factor)` from
`src/bin/lidarr_search.py` (defaults in the source: 3, 2.0, 2.0). -/
def retry_with_backoff (func : Nat → Except Exc α) (max_retries : Nat)
    (initial_wait backoff_factor : ℚ) : RWBRun α :=
  binLoop func backoff_factor max_retries 0 initial_wait none []

end BinSearch

namespace ExampleSearch

/-- Loop body of `retry_with_backoff` in `src/examples/search_artist.py`.
Identical to the `bin/lidarr_search.py` loop except that its single
`except Exception` clause catches every exception deriving from `Exception`;
`KeyboardInterrupt` and `SystemExit` do not derive from `Exception` and hence
propagate uncaught. -/
def exLoop (func : Nat → Except Exc α) (backoff : ℚ) :
    Nat → Nat → ℚ → Option Exc → List ℚ → RWBRun α
  | 0, calls, _, lastExc, sleeps =>
    match lastExc with
    | some e => ⟨.raised e, calls, sleeps⟩
    | none => ⟨.raiseNoneTypeError, calls, sleeps⟩
  | remaining + 1, calls, wait, _, sleeps =>
    match func calls with
    | .ok a => ⟨.ok a, calls + 1, sleeps⟩
    | .error e =>
      if systemExc e then ⟨.raised e, calls + 1, sleeps⟩
      else
        if remaining = 0 then
          exLoop func backoff remaining (calls + 1) wait (some e) sleeps
        else
          exLoop func backoff remaining (calls + 1) (wait * backoff) (some e)
            (sleeps ++ [wait])

/-- `retry_with_backoff(func, max_retries, initial_wait, backoff_factor)` from
`src/examples/search_artist.py` (defaults in the source: 3, 2.0, 2.0). -/
def retry_with_backoff (func : Nat → Except Exc α) (max_retries : Nat)
    (initial_wait backoff_factor : ℚ) : RWBRun α :=
  exLoop func backoff_factor max_retries 0 initial_wait none []

end ExampleSearch

end LidarrApi

namespace LidarrApi

/-- One page of the `wanted/missing` endpoint as consumed by
`export_wanted_albums`: the `records` list plus the server-reported
`totalRecords` count (which the aggregation loop never reads). -/
structure WantedPage (α : Type) : Type where
  records : List α
  totalRecords : Nat
deriving DecidableEq, Repr

/-- The pagination loop of `export_wanted_albums` in
`src/lidarr_api/data_utils.py`:

    all_wanted = []
    page = 1
    page_size = 100
    while True:
        result = client.get_wanted(page=page, page_size=page_size)
        records = result.get('records', [])
        if not records: break
        all_wanted.extend(records)
        if len(records) < page_size: break
        page += 1

`fetch` maps a page number to that page; `fuel` bounds the number of
iterations (the Python loop is unbounded); the result is the accumulated
record list together with the number of fetch calls performed, or `none`
when `fuel` iterations did not reach a terminating page. -/
def exportLoop (fetch : Nat → WantedPage α) (page_size : Nat) :
    Nat → Nat → List α → Nat → Option (List α × Nat)
  | 0, _, _, _ => none
  | fuel + 1, page, acc, calls =>
    let records := (fetch page).records
    if records.isEmpty then some (acc, calls + 1)
    else if records.length < page_size then some (acc ++ records, calls + 1)
    else exportLoop fetch page_size fuel (page + 1) (acc ++ records) (calls + 1)

/-- `export_wanted_albums`'s aggregation of wanted albums: page size 100,
starting at page 1, empty accumulator. -/
def export_wanted_albums (fetch : Nat → WantedPage α) (fuel : Nat) :
    Option (List α × Nat) :=
  exportLoop fetch 100 fuel 1 [] 0

/-- The records of pages `1, 2, ..., k` concatenated in page order. -/
def pagesConcat (fetch : Nat → WantedPage α) (k : Nat) : List α :=
  (List.range' 1 k).flatMap fun p => (fetch p).records

instance {ε α : Type} [DecidableEq ε] [DecidableEq α] :
    DecidableEq (Except ε α) := fun x y =>
  match x, y with
  | .ok a, .ok b =>
    if h : a = b then .isTrue (by rw [h]) else .isFalse (by simp [h])
  | .ok _, .error _ => .isFalse (by simp)
  | .error _, .ok _ => .isFalse (by simp)
  | .error e, .error f =>
    if h : e = f then .isTrue (by rw [h]) else .isFalse (by simp [h])

/-- The same pagination loop with a fallible page fetch: `fetch` may raise a
transport exception, which the loop does not catch — in the source there is
no `try` inside the `while`, so the exception aborts the loop and the
accumulator is discarded.  The `Nat` component counts fetch calls made. -/
def exportLoopE (fetch : Nat → Except Exc (WantedPage α)) (page_size : Nat) :
    Nat → Nat → List α → Nat → Option (Except Exc (List α × Nat) × Nat)
  | 0, _, _, _ => none
  | fuel + 1, page, acc, calls =>
    match fetch page with
    | .error e => some (.error e, calls + 1)
    | .ok result =>
      let records := result.records
      if records.isEmpty then some (.ok (acc, calls + 1), calls + 1)
      else if records.length < page_size then
        some (.ok (acc ++ records, calls + 1), calls + 1)
      else exportLoopE fetch page_size fuel (page + 1) (acc ++ records) (calls + 1)

/-- `export_wanted_albums`'s aggregation with a fallible page fetch. -/
def export_wanted_albums_fallible (fetch : Nat → Except Exc (WantedPage α))
    (fuel : Nat) : Option (Except Exc (List α × Nat) × Nat) :=
  exportLoopE fetch 100 fuel 1 [] 0

/-- The retryable HTTP statuses configured on the gateway's session in
`LidarrClient.__init__` (`status_forcelist` of the `urllib3` `Retry`). -/
def status_forcelist : List Nat := [429, 500, 502, 503, 504]

/-- The HTTP methods the configured `urllib3` `Retry` is allowed to retry
(`allowed_methods` in `LidarrClient.__init__`): every method, including
non-idempotent POST. -/
def allowed_methods : List String :=
  ["HEAD", "GET", "PUT", "DELETE", "OPTIONS", "TRACE", "POST"]

/-- One HTTP response: its status code and its decoded body, `none` standing
for an empty body (`response.content` falsy), `some b` for a body decoding to
the opaque JSON value `b`. -/
structure HttpResponse (β : Type) : Type where
  status : Nat
  content : Option β
deriving DecidableEq, Repr

/-- The transport-error category surfaced by the gateway: retry budget
exhausted on a retryable status (a `requests` `RetryError`, carrying the last
status as its cause), or `raise_for_status` on a final 4xx/5xx response
(an `HTTPError` carrying the status). -/
inductive TransportError : Type
| maxRetryError (lastStatus : Nat)
| httpError (status : Nat)
deriving DecidableEq, Repr

/-- The retry behaviour of the session configured in `LidarrClient.__init__`:
a `urllib3` `Retry` with the given `total`, `status_forcelist`,
`allowed_methods` and `raise_on_status=True`.  `attempts i` is the response
the server would give to the `i`-th transmission of the request (0-based).
A response whose status is in the forcelist for an allowed method consumes
one retry and re-issues the request; with no retries left it raises; any
other response is returned as the final response. -/
def sessionRequest (method : String) (attempts : Nat → HttpResponse β) :
    Nat → Nat → Except TransportError (HttpResponse β)
  | retriesLeft, i =>
    let r := attempts i
    if r.status ∈ status_forcelist ∧ method ∈ allowed_methods then
      match retriesLeft with
      | 0 => .error (.maxRetryError r.status)
      | n + 1 => sessionRequest method attempts n (i + 1)
    else .ok r

/-- The `urllib3` backoff schedule seeding the transport retries: before the
`consecutive`-th retransmission, `Retry.get_backoff_time` returns 0 for the
first retry and `backoff_factor * 2 ^ (consecutive - 1)` afterwards. -/
def get_backoff_time (backoff_factor : ℚ) (consecutive : Nat) : ℚ :=
  if consecutive ≤ 1 then 0 else backoff_factor * 2 ^ (consecutive - 1)

/-- Strip trailing slashes, as `base_url.rstrip('/')` does. -/
def rstripSlash (s : String) : String :=
  ⟨(s.data.reverse.dropWhile (fun c => c = '/')).reverse⟩

/-- The gateway state set up by `LidarrClient.__init__`: connection
configuration plus the mutable `last_request_time`. -/
structure LidarrClient : Type where
  base_url : String
  api_key : String
  timeout : ℚ
  retry_total : Nat
  rate_limit : ℚ
  last_request_time : ℚ
deriving DecidableEq, Repr

/-- `LidarrClient.__init__(base_url, api_key, retry_total, retry_backoff_factor,
timeout, rate_limit_per_second)`: strips trailing slashes from the base URL,
derives `rate_limit` as `1.0 / rate_limit_per_second`, and resets
`last_request_time` to `0.0`. -/
def LidarrClient.init (base_url api_key : String) (retry_total : Nat)
    (timeout rate_limit_per_second : ℚ) : LidarrClient :=
  { base_url := rstripSlash base_url
    api_key := api_key
    timeout := timeout
    retry_total := retry_total
    rate_limit := 1 / rate_limit_per_second
    last_request_time := 0 }

/-- The rate-limiting prelude of `LidarrClient._request`: the elapsed time
since `last_request_time` is computed, and when it is below `rate_limit` the
thread sleeps for exactly the remaining difference. -/
def rate_limit_sleep (rate_limit last now : ℚ) : ℚ :=
  if now - last < rate_limit then rate_limit - (now - last) else 0

/-- The sleep `_request` performs for a client at wall-clock time `now`:
a function of the client's `rate_limit` and `last_request_time` only. -/
def clientSleep (c : LidarrClient) (now : ℚ) : ℚ :=
  rate_limit_sleep c.rate_limit c.last_request_time now

/-- The observable result of one `_request` call: the value returned or the
transport error raised, the gateway state afterwards, the duration slept by
the rate limiter, and the times at which the request was issued and at which
the response arrived. -/
structure CallOutcome (β : Type) : Type where
  result : Except TransportError (Option β)
  client : LidarrClient
  sleep : ℚ
  issue : ℚ
  completion : ℚ
deriving DecidableEq, Repr

/-- `LidarrClient._request` given wall-clock time `now` at entry and a network
round-trip of `duration`: sleep per the rate limiter, issue the request
through the retrying session, then `raise_for_status` (which raises exactly
for statuses in `[400, 600)`), set `last_request_time = time.time()` — the
completion time — and decode the body (`None` for an empty body).  When the
session or `raise_for_status` raises, the `except` clause logs and re-raises,
so `last_request_time` is left unchanged. -/
def LidarrClient.request (c : LidarrClient) (now duration : ℚ) (method : String)
    (attempts : Nat → HttpResponse β) : CallOutcome β :=
  let s := clientSleep c now
  let issue := now + s
  let completion := issue + duration
  match sessionRequest method attempts c.retry_total 0 with
  | .error e => ⟨.error e, c, s, issue, completion⟩
  | .ok r =>
    if 400 ≤ r.status ∧ r.status < 600 then
      ⟨.error (.httpError r.status), c, s, issue, completion⟩
    else
      ⟨.ok r.content, { c with last_request_time := completion }, s, issue,
        completion⟩

/-- Completion time of a sequence of back-to-back successful `_request` calls:
`last` is the current `last_request_time`, `t` the wall-clock time at which
the next call is entered, and each list element the network duration of one
call.  Each call sleeps per `rate_limit_sleep`, completes, sets
`last_request_time` to its completion time, and the next call starts
immediately at that completion time. -/
def runCalls (rate_limit : ℚ) : ℚ → ℚ → List ℚ → ℚ
  | _, t, [] => t
  | last, t, d :: ds =>
    let s := rate_limit_sleep rate_limit last t
    let completion := t + s + d
    runCalls rate_limit completion completion ds

/-- A page-fetch stub returning pages of sizes 100, 100, 37 (pages past the
third would also have 37 records, but are never requested). -/
def stubPages237 : Nat → WantedPage Nat :=
  fun p => ⟨List.replicate (if p ≤ 2 then 100 else 37) p, 237⟩

/-- A page-fetch stub returning pages of sizes 100, 100, 100, 0. -/
def stubPages300 : Nat → WantedPage Nat :=
  fun p => ⟨List.replicate (if p ≤ 3 then 100 else 0) p, 300⟩

/-- A fetch stub for the retry helpers: connectivity failures on the first
two attempts, success (returning 7) on the third. -/
def stubFlaky : Nat → Except Exc Nat :=
  fun k =>
    if k = 0 then .error ⟨.connectionError, 0⟩
    else if k = 1 then .error ⟨.timeoutError, 1⟩
    else .ok 7

end LidarrApi

namespace LidarrApi

theorem connectivityExc_not_system (e : Exc) (h : connectivityExc e = true) :
    systemExc e = false := by
  cases e with
  | mk cls payload =>
    cases cls <;> simp_all [connectivityExc, systemExc]

/-- C5: `retry_with_backoff` (`src/bin/lidarr_search.py`) over an operation
that raises a connectivity error on the first two attempts and succeeds on
the third, with `max_retries = 3`, returns the third attempt's result after
3 invocations, sleeping `initial_wait` then `initial_wait * backoff_factor`
(total slept time `initial_wait + initial_wait * backoff_factor`); and a
connectivity failure on the final permitted attempt propagates unmodified
with no additional sleep. -/
theorem C5_retry_with_backoff_behaviour {α : Type}
    (func : Nat → Except Exc α) (a : α) (e₁ e₂ : Exc) (w f : ℚ)
    (h0 : func 0 = .error e₁) (he1 : connectivityExc e₁ = true)
    (h1 : func 1 = .error e₂) (he2 : connectivityExc e₂ = true)
    (h2 : func 2 = .ok a) :
    BinSearch.retry_with_backoff func 3 w f = ⟨.ok a, 3, [w, w * f]⟩ ∧
    (BinSearch.retry_with_backoff func 3 w f).sleeps.sum = w + w * f ∧
    (∀ (g : Nat → Except Exc α) (calls : Nat) (wait : ℚ) (lastExc : Option Exc)
        (sleeps : List ℚ) (e : Exc),
      g calls = .error e → connectivityExc e = true →
      BinSearch.binLoop g f 1 calls wait lastExc sleeps =
        ⟨.raised e, calls + 1, sleeps⟩) := by
  have hs1 := connectivityExc_not_system e₁ he1
  have hs2 := connectivityExc_not_system e₂ he2
  have hrun : BinSearch.retry_with_backoff func 3 w f = ⟨.ok a, 3, [w, w * f]⟩ := by
    simp [BinSearch.retry_with_backoff, BinSearch.binLoop, h0, h1, h2, he1, he2,
      hs1, hs2]
  refine ⟨hrun, ?_, ?_⟩
  · rw [hrun]; simp
  · intro g calls wait lastExc sleeps e hg he
    have hse := connectivityExc_not_system e he
    simp [BinSearch.binLoop, hg, he, hse]

/-- C5 witness: the theorem applied to the concrete stub `stubFlaky` with
`initial_wait = 2` and `backoff_factor = 2`. -/
theorem C5_retry_with_backoff_behaviour_witness :
    BinSearch.retry_with_backoff stubFlaky 3 2 2 = ⟨.ok 7, 3, [2, 2 * 2]⟩ :=
  (C5_retry_with_backoff_behaviour stubFlaky 7 ⟨.connectionError, 0⟩
    ⟨.timeoutError, 1⟩ 2 2 rfl rfl rfl rfl rfl).1

/-- C8: in either retry helper, whenever the wrapped operation raises a
`KeyboardInterrupt` or `SystemExit`, the exception propagates immediately:
one single further invocation happened (the raising one), no sleep is added,
and the loop returns the raised interrupt regardless of its remaining
attempt budget, wait, stored exception or prior sleeps. -/
theorem C8_interrupts_never_retried {α : Type}
    (func : Nat → Except Exc α) (r calls : Nat) (wait factor : ℚ)
    (lastExc : Option Exc) (sleeps : List ℚ) (e : Exc)
    (hsys : systemExc e = true) (h : func calls = .error e) :
    BinSearch.binLoop func factor (r + 1) calls wait lastExc sleeps =
      ⟨.raised e, calls + 1, sleeps⟩ ∧
    ExampleSearch.exLoop func factor (r + 1) calls wait lastExc sleeps =
      ⟨.raised e, calls + 1, sleeps⟩ := by
  constructor
  · simp [BinSearch.binLoop, h, hsys]
  · simp [ExampleSearch.exLoop, h, hsys]

/-- C8 witness: the theorem applied at the top of a fresh run
(`max_retries = 3`) for an operation whose first attempt raises
`KeyboardInterrupt`. -/
theorem C8_interrupts_never_retried_witness :
    BinSearch.binLoop (fun _ => (.error ⟨.keyboardInterrupt, 0⟩ : Except Exc Nat))
        2 3 0 2 none [] = ⟨.raised ⟨.keyboardInterrupt, 0⟩, 1, []⟩ ∧
    ExampleSearch.exLoop (fun _ => (.error ⟨.keyboardInterrupt, 0⟩ : Except Exc Nat))
        2 3 0 2 none [] = ⟨.raised ⟨.keyboardInterrupt, 0⟩, 1, []⟩ :=
  C8_interrupts_never_retried (fun _ => .error ⟨.keyboardInterrupt, 0⟩)
    2 0 2 2 none [] ⟨.keyboardInterrupt, 0⟩ rfl rfl

/-- C9 counterexample: the two `retry_with_backoff` implementations are not
behaviorally equivalent.  For an operation that always raises `ValueError`,
with `max_retries = 2`, the `bin/lidarr_search.py` version propagates after a
single invocation with no sleep, while the `examples/search_artist.py`
version invokes the operation twice and sleeps once. -/
theorem C9_not_equivalent :
    BinSearch.retry_with_backoff
        (fun _ => (.error ⟨.valueError, 0⟩ : Except Exc Nat)) 2 1 2 ≠
      ExampleSearch.retry_with_backoff
        (fun _ => (.error ⟨.valueError, 0⟩ : Except Exc Nat)) 2 1 2 := by
  decide

/-- C9 (amended): the two implementations are behaviorally equivalent on
operations that only ever raise connectivity-class exceptions
(`RequestException`, `ConnectionError`, `TimeoutError`) or interrupts
(`KeyboardInterrupt`, `SystemExit`); they differ on other `Exception`
subclasses such as `ValueError`, which the examples version retries and the
bin version propagates at once. -/
theorem C9_equivalent_on_connectivity {α : Type}
    (func : Nat → Except Exc α) (max_retries : Nat) (w f : ℚ)
    (h : ∀ k e, func k = .error e →
      connectivityExc e = true ∨ systemExc e = true) :
    BinSearch.retry_with_backoff func max_retries w f =
      ExampleSearch.retry_with_backoff func max_retries w f := by
  have key : ∀ (remaining calls : Nat) (wait : ℚ) (lastExc : Option Exc)
      (sleeps : List ℚ),
      BinSearch.binLoop func f remaining calls wait lastExc sleeps =
        ExampleSearch.exLoop func f remaining calls wait lastExc sleeps := by
    intro remaining
    induction remaining with
    | zero =>
      intro calls wait lastExc sleeps
      cases lastExc <;> rfl
    | succ r ih =>
      intro calls wait lastExc sleeps
      cases hf : func calls with
      | ok a => simp [BinSearch.binLoop, ExampleSearch.exLoop, hf]
      | error e =>
        rcases h calls e hf with hc | hs
        · have hns := connectivityExc_not_system e hc
          simp [BinSearch.binLoop, ExampleSearch.exLoop, hf, hc, hns, ih]
        · simp [BinSearch.binLoop, ExampleSearch.exLoop, hf, hs]
  exact key max_retries 0 w none []

/-- C9 amended-claim witness: the equivalence applied to the concrete
connectivity-failure stub `stubFlaky`. -/
theorem C9_equivalent_on_connectivity_witness :
    BinSearch.retry_with_backoff stubFlaky 3 2 2 =
      ExampleSearch.retry_with_backoff stubFlaky 3 2 2 :=
  C9_equivalent_on_connectivity stubFlaky 3 2 2 (by
    intro k e hk
    unfold stubFlaky at hk
    by_cases h0 : k = 0
    · subst h0; simp at hk; subst hk; left; rfl
    · by_cases h1 : k = 1
      · subst h1; simp at hk; subst hk; left; rfl
      · simp [h0, h1] at hk)

/-- C10: with `max_retries = 0` the loop body is skipped entirely in both
retry helpers: the operation is never invoked, nothing is slept, and the
final `raise last_exception` raises the initial `None`, failing with a
`TypeError` instead of returning a value or surfacing any error from the
operation. -/
theorem C10_zero_retries_raises_none {α : Type} :
    ∀ (func : Nat → Except Exc α) (w f : ℚ),
      BinSearch.retry_with_backoff func 0 w f = ⟨.raiseNoneTypeError, 0, []⟩ ∧
      ExampleSearch.retry_with_backoff func 0 w f =
        ⟨.raiseNoneTypeError, 0, []⟩ :=
  fun _ _ _ => ⟨rfl, rfl⟩

lemma exportLoop_run {α : Type} (fetch : Nat → WantedPage α) (k : Nat)
    (hshort : ((fetch k).records).length < 100)
    (hfull : ∀ j, j < k → 1 ≤ j → ((fetch j).records).length = 100) :
    ∀ (m fuel page : Nat) (acc : List α) (calls : Nat),
      page + m = k → 1 ≤ page → m < fuel →
      exportLoop fetch 100 fuel page acc calls =
        some (acc ++ (List.range' page (m + 1)).flatMap
          (fun p => (fetch p).records), calls + (m + 1)) := by
  intro m
  induction m with
  | zero =>
    intro fuel page acc calls hpk hp hfuel
    obtain ⟨f, rfl⟩ : ∃ f, fuel = f + 1 := ⟨fuel - 1, by omega⟩
    have hk : page = k := by omega
    subst hk
    by_cases he : ((fetch page).records).isEmpty
    · have hnil : (fetch page).records = [] := by
        simpa [List.isEmpty_iff] using he
      simp [exportLoop, he, hnil]
    · simp [exportLoop, he, hshort]
  | succ n ih =>
    intro fuel page acc calls hpk hp hfuel
    obtain ⟨f, rfl⟩ : ∃ f, fuel = f + 1 := ⟨fuel - 1, by omega⟩
    have hlen : ((fetch page).records).length = 100 :=
      hfull page (by omega) hp
    have hne : ¬ ((fetch page).records).isEmpty := by
      simp [List.isEmpty_iff]
      intro hnil
      rw [hnil] at hlen
      simp at hlen
    have hrec := ih f (page + 1) (acc ++ (fetch page).records) (calls + 1)
      (by omega) (by omega) (by omega)
    simp only [exportLoop, hne, hlen, if_false, Bool.false_eq_true]
    norm_num
    rw [hrec]
    conv_rhs => rw [List.range'_succ]
    simp only [List.flatMap_cons, List.append_assoc, Option.some.injEq,
      Prod.mk.injEq]
    exact ⟨trivial, by omega⟩

lemma exportLoop_records_only {α : Type} (fetch fetch' : Nat → WantedPage α)
    (h : ∀ p, (fetch p).records = (fetch' p).records) :
    ∀ (fuel page : Nat) (acc : List α) (calls : Nat),
      exportLoop fetch 100 fuel page acc calls =
        exportLoop fetch' 100 fuel page acc calls := by
  intro fuel
  induction fuel with
  | zero => intro page acc calls; rfl
  | succ f ih =>
    intro page acc calls
    simp only [exportLoop, h page]
    split
    · rfl
    · split
      · rfl
      · exact ih (page + 1) (acc ++ (fetch' page).records) (calls + 1)

/-- C1: the wanted-albums aggregator of `export_wanted_albums` starts at
page 1 with page size 100, appends every page's records to the accumulator in
page order, and stops at the first page whose records are empty or fewer than
the page size; its result depends only on the records fields, never on
`totalRecords`; on a stub with page sizes 100, 100, 37 it returns 237 records
after exactly 3 fetch calls, and on a stub with page sizes 100, 100, 100, 0
it returns 300 records after exactly 4 fetch calls. -/
theorem C1_export_wanted_albums_pagination {α : Type} :
    (∀ (fetch : Nat → WantedPage α) (k fuel : Nat),
      1 ≤ k → k ≤ fuel →
      ((fetch k).records).length < 100 →
      (∀ j, j < k → 1 ≤ j → ((fetch j).records).length = 100) →
      export_wanted_albums fetch fuel = some (pagesConcat fetch k, k)) ∧
    (∀ (fetch fetch' : Nat → WantedPage α) (fuel : Nat),
      (∀ p, (fetch p).records = (fetch' p).records) →
      export_wanted_albums fetch fuel = export_wanted_albums fetch' fuel) ∧
    ((export_wanted_albums stubPages237 10).map
      (fun r => (r.1.length, r.2)) = some (237, 3)) ∧
    ((export_wanted_albums stubPages300 10).map
      (fun r => (r.1.length, r.2)) = some (300, 4)) := by
  refine ⟨?_, ?_, by decide, by decide⟩
  · intro fetch k fuel hk hfuel hshort hfull
    have h := exportLoop_run fetch k hshort hfull (k - 1) fuel 1 [] 0
      (by omega) (by omega) (by omega)
    have hm : k - 1 + 1 = k := by omega
    rw [hm] at h
    simpa [export_wanted_albums, pagesConcat] using h
  · intro fetch fetch' fuel h
    exact exportLoop_records_only fetch fetch' h fuel 1 [] 0

/-- C1 witness: the general clause applied to the concrete 100/100/37 stub
(3 full-page-terminated pages), with all hypotheses checked by `decide`. -/
theorem C1_export_wanted_albums_pagination_witness :
    export_wanted_albums stubPages237 10 = some (pagesConcat stubPages237 3, 3) :=
  C1_export_wanted_albums_pagination.1 stubPages237 3 10
    (by decide) (by decide) (by decide) (by decide)

lemma exportLoopE_error {α : Type} (fetch : Nat → Except Exc (WantedPage α))
    (k : Nat) (e : Exc) (herr : fetch k = .error e)
    (hfull : ∀ j, j < k → 1 ≤ j →
      ∃ pg, fetch j = .ok pg ∧ pg.records.length = 100) :
    ∀ (m fuel page : Nat) (acc : List α) (calls : Nat),
      page + m = k → 1 ≤ page → m < fuel →
      exportLoopE fetch 100 fuel page acc calls =
        some (.error e, calls + (m + 1)) := by
  intro m
  induction m with
  | zero =>
    intro fuel page acc calls hpk hp hfuel
    obtain ⟨f, rfl⟩ : ∃ f, fuel = f + 1 := ⟨fuel - 1, by omega⟩
    have hk : page = k := by omega
    subst hk
    simp [exportLoopE, herr]
  | succ n ih =>
    intro fuel page acc calls hpk hp hfuel
    obtain ⟨f, rfl⟩ : ∃ f, fuel = f + 1 := ⟨fuel - 1, by omega⟩
    obtain ⟨pg, hpg, hlen⟩ := hfull page (by omega) hp
    have hne : ¬ pg.records.isEmpty := by
      simp [List.isEmpty_iff]
      intro hnil
      rw [hnil] at hlen
      simp at hlen
    have hrec := ih f (page + 1) (acc ++ pg.records) (calls + 1)
      (by omega) (by omega) (by omega)
    simp only [exportLoopE, hpg, hne, hlen, if_false, Bool.false_eq_true]
    norm_num
    rw [hrec]
    simp only [Option.some.injEq, Prod.mk.injEq]
    exact ⟨trivial, by omega⟩

/-- C7: if a page fetch raises a transport exception during aggregation, the
loop in `export_wanted_albums` does not retry it and does not
catch-and-continue: the exception aborts the aggregation immediately (pages
before the failing one were each fetched exactly once, so the failure of page
`k` happens on fetch call `k`), and the records accumulated so far are
discarded — the aggregation produces the error and no partial record list. -/
theorem C7_fetch_failure_propagates {α : Type}
    (fetch : Nat → Except Exc (WantedPage α)) (k fuel : Nat) (e : Exc)
    (hk : 1 ≤ k) (hfuel : k ≤ fuel)
    (herr : fetch k = .error e)
    (hfull : ∀ j, j < k → 1 ≤ j →
      ∃ pg, fetch j = .ok pg ∧ pg.records.length = 100) :
    export_wanted_albums_fallible fetch fuel = some (.error e, k) := by
  have h := exportLoopE_error fetch k e herr hfull (k - 1) fuel 1 [] 0
    (by omega) (by omega) (by omega)
  have hm : 0 + (k - 1 + 1) = k := by omega
  rw [hm] at h
  simpa [export_wanted_albums_fallible] using h

/-- C7 witness: a stub whose first page is full and whose second fetch raises
a connection error; the aggregation yields the error after exactly 2 calls. -/
theorem C7_fetch_failure_propagates_witness :
    export_wanted_albums_fallible
      (fun p => if p = 1 then .ok ⟨List.replicate 100 0, 237⟩
        else (.error ⟨.connectionError, 0⟩ : Except Exc (WantedPage Nat))) 10 =
      some (.error ⟨.connectionError, 0⟩, 2) :=
  C7_fetch_failure_propagates
    (fun p => if p = 1 then .ok ⟨List.replicate 100 0, 237⟩
      else .error ⟨.connectionError, 0⟩) 2 10 ⟨.connectionError, 0⟩
    (by decide) (by decide) (by decide)
    (by
      intro j hj h1
      have : j = 1 := by omega
      subst this
      exact ⟨⟨List.replicate 100 0, 237⟩, rfl, by decide⟩)

lemma rate_limit_sleep_nonneg (rl last now : ℚ) (_h : 0 ≤ rl) :
    0 ≤ rate_limit_sleep rl last now := by
  unfold rate_limit_sleep
  split_ifs with h1 <;> linarith

lemma rate_limit_sleep_self (rl c : ℚ) (h : 0 ≤ rl) :
    rate_limit_sleep rl c c = rl := by
  unfold rate_limit_sleep
  split_ifs with h1 <;> linarith

lemma runCalls_ge_of_gap (T : ℚ) (hT : 0 ≤ T) :
    ∀ (ds : List ℚ), (∀ d ∈ ds, 0 ≤ d) → ∀ c : ℚ,
      c + (ds.length : ℚ) * T ≤ runCalls T c c ds := by
  intro ds
  induction ds with
  | nil =>
    intro _h c
    simp [runCalls]
  | cons d ds ih =>
    intro h c
    have hd : 0 ≤ d := h d (by simp)
    have hds : ∀ x ∈ ds, 0 ≤ x := fun x hx => h x (by simp [hx])
    have hrec := ih hds (c + T + d)
    simp only [runCalls, rate_limit_sleep_self T c hT, List.length_cons]
    push_cast
    push_cast at hrec
    linarith

/-- C2: `_request` computes the elapsed time since `last_request_time` and,
when it is below `rate_limit`, sleeps for exactly the remaining difference;
the rate-limit interval is derived as `1 / rate_limit_per_second` at
construction; and a sequence of N back-to-back calls through one gateway
instance (each starting when the previous one completes, with nonnegative
network durations) takes at least `(N - 1) * rate_limit` of wall-clock time. -/
theorem C2_rate_limit_spacing :
    (∀ rl last now : ℚ, now - last < rl →
      rate_limit_sleep rl last now = rl - (now - last)) ∧
    (∀ (u k : String) (n : Nat) (t rps : ℚ),
      (LidarrClient.init u k n t rps).rate_limit = 1 / rps) ∧
    (∀ (T last t : ℚ) (ds : List ℚ), 0 ≤ T → (∀ d ∈ ds, 0 ≤ d) →
      t + ((ds.length : ℚ) - 1) * T ≤ runCalls T last t ds) := by
  refine ⟨?_, ?_, ?_⟩
  · intro rl last now h
    unfold rate_limit_sleep
    rw [if_pos h]
  · intro u k n t rps
    rfl
  · intro T last t ds hT hds
    cases ds with
    | nil =>
      simp only [runCalls, List.length_nil]
      push_cast
      nlinarith
    | cons d ds =>
      have hd : 0 ≤ d := hds d (by simp)
      have hds' : ∀ x ∈ ds, 0 ≤ x := fun x hx => hds x (by simp [hx])
      have hs : 0 ≤ rate_limit_sleep T last t :=
        rate_limit_sleep_nonneg T last t hT
      have hrec := runCalls_ge_of_gap T hT ds hds'
        (t + rate_limit_sleep T last t + d)
      simp only [runCalls, List.length_cons]
      push_cast
      push_cast at hrec
      linarith

/-- C2 witness: three back-to-back zero-duration calls with
`rate_limit = 1`, from a fresh gateway at time 0, take at least 2 time
units. -/
theorem C2_rate_limit_spacing_witness :
    (0 : ℚ) + (((([0, 0, 0] : List ℚ).length : ℚ)) - 1) * 1 ≤
      runCalls 1 0 0 [0, 0, 0] :=
  C2_rate_limit_spacing.2.2 1 0 0 [0, 0, 0] (by norm_num)
    (by intro d hd; simp at hd; simp [hd])

lemma sessionRequest_ok {β : Type} (method : String)
    (attempts : Nat → HttpResponse β) (n i : Nat)
    (h : (attempts i).status ∉ status_forcelist) :
    sessionRequest method attempts n i = .ok (attempts i) := by
  unfold sessionRequest
  rw [if_neg]
  intro hc
  exact h hc.1

lemma sessionRequest_all500 {β : Type} (attempts : Nat → HttpResponse β)
    (h : ∀ j, (attempts j).status = 500) :
    ∀ (total i : Nat),
      sessionRequest "GET" attempts total i = .error (.maxRetryError 500) := by
  intro total
  induction total with
  | zero =>
    intro i
    unfold sessionRequest
    rw [if_pos (by constructor <;> simp [h i, status_forcelist, allowed_methods])]
    rw [h i]
  | succ n ih =>
    intro i
    unfold sessionRequest
    rw [if_pos (by constructor <;> simp [h i, status_forcelist, allowed_methods])]
    exact ih (i + 1)

/-- C3: the session built in `LidarrClient.__init__` retries a request exactly
when the response status is in 429, 500, 502, 503, 504, for every allowed
method — and every method is allowed, including non-idempotent POST; the
retry waits follow the exponential backoff schedule seeded by
`retry_backoff_factor`; and a call answered 503 on attempt 1 and 200 on
attempt 2, within a positive retry budget, returns the attempt-2 decoded body
with no error raised and no caller-visible intermediate failure. -/
theorem C3_transport_retry :
    ("POST" ∈ allowed_methods) ∧
    (∀ (β : Type) (method : String) (attempts : Nat → HttpResponse β) (n i : Nat),
      method ∈ allowed_methods → (attempts i).status ∈ status_forcelist →
      sessionRequest method attempts (n + 1) i =
        sessionRequest method attempts n (i + 1)) ∧
    (∀ (β : Type) (method : String) (attempts : Nat → HttpResponse β) (n i : Nat),
      (attempts i).status ∉ status_forcelist →
      sessionRequest method attempts n i = .ok (attempts i)) ∧
    (∀ (f : ℚ), get_backoff_time f 2 = f * 2 ∧
      ∀ k, 2 ≤ k → get_backoff_time f (k + 1) = 2 * get_backoff_time f k) ∧
    (∀ (c : LidarrClient) (now dur : ℚ) (b : Nat) (n : Nat),
      c.retry_total = n + 1 →
      (c.request now dur "GET"
        (fun i => if i = 0 then ⟨503, none⟩ else ⟨200, some b⟩)).result =
        .ok (some b)) := by
  refine ⟨by decide, ?_, ?_, ?_, ?_⟩
  · intro β method attempts n i hm hs
    conv_lhs => unfold sessionRequest
    rw [if_pos ⟨hs, hm⟩]
  · intro β method attempts n i h
    exact sessionRequest_ok method attempts n i h
  · intro f
    constructor
    · unfold get_backoff_time
      norm_num
    · intro k hk
      unfold get_backoff_time
      rw [if_neg (by omega), if_neg (by omega)]
      obtain ⟨j, rfl⟩ : ∃ j, k = j + 2 := ⟨k - 2, by omega⟩
      have h1 : j + 2 + 1 - 1 = j + 2 := by omega
      have h2 : j + 2 - 1 = j + 1 := by omega
      rw [h1, h2, pow_succ]
      ring
  · intro c now dur b n hn
    have hsess : sessionRequest "GET"
        (fun i => if i = 0 then ⟨503, none⟩ else (⟨200, some b⟩ : HttpResponse Nat))
        (n + 1) 0 = .ok ⟨200, some b⟩ := by
      conv_lhs => unfold sessionRequest
      rw [if_pos (by
        refine ⟨?_, ?_⟩ <;> simp [status_forcelist, allowed_methods])]
      exact sessionRequest_ok _ _ n 1 (by simp [status_forcelist])
    unfold LidarrClient.request
    rw [hn, hsess]
    norm_num

/-- C3 witness: the 503-then-200 clause applied to a freshly constructed
client with `retry_total = 3`. -/
theorem C3_transport_retry_witness :
    ((LidarrClient.init "http://localhost:8686" "key" 3 60 2).request 0 1 "GET"
      (fun i => if i = 0 then ⟨503, none⟩ else ⟨200, some 42⟩)).result =
      .ok (some 42) :=
  C3_transport_retry.2.2.2.2 (LidarrClient.init "http://localhost:8686" "key" 3 60 2)
    0 1 42 2 rfl

/-- C4 counterexample: a final 304 response is non-2xx, is not in the
retryable set, and yet `_request` raises no transport error —
`raise_for_status` only raises for statuses in `[400, 600)` — so the claim's
"any final non-2xx response ... raises a transport error" is false at 304:
the call returns the decoded (empty) body instead. -/
theorem C4_counterexample_final_304 :
    ¬ (200 ≤ 304 ∧ 304 < 300) ∧
    304 ∉ status_forcelist ∧
    ((LidarrClient.init "http://localhost:8686" "key" 3 60 2).request 0 1 "GET"
      (fun _ => (⟨304, none⟩ : HttpResponse Nat))).result = .ok none := by
  refine ⟨by omega, by decide, ?_⟩
  have hsess : sessionRequest "GET" (fun _ => (⟨304, none⟩ : HttpResponse Nat))
      (LidarrClient.init "http://localhost:8686" "key" 3 60 2).retry_total 0 =
      .ok ⟨304, none⟩ :=
    sessionRequest_ok _ _ _ 0 (by decide)
  unfold LidarrClient.request
  rw [hsess]
  norm_num

/-- C4 (amended): a gateway call whose responses are all 500 exhausts its
retry budget and raises a transport error carrying the final status — no JSON
value is returned and the gateway state is untouched; and any final response
with status in `[400, 600)` (rather than: any non-2xx status — a final 3xx
such as 304 is returned, not raised) raises a transport error, the caller
receiving no data. -/
theorem C4_retry_exhaustion_raises
    (c : LidarrClient) (now dur : ℚ)
    (attempts : Nat → HttpResponse Nat)
    (h500 : ∀ j, (attempts j).status = 500)
    (attempts2 : Nat → HttpResponse Nat) (r : HttpResponse Nat)
    (method : String)
    (hfin : sessionRequest method attempts2 c.retry_total 0 = .ok r)
    (h4xx : 400 ≤ r.status) (h6xx : r.status < 600) :
    (c.request now dur "GET" attempts).result = .error (.maxRetryError 500) ∧
    (c.request now dur "GET" attempts).client = c ∧
    (c.request now dur method attempts2).result = .error (.httpError r.status) := by
  have hsess := sessionRequest_all500 attempts h500 c.retry_total 0
  refine ⟨?_, ?_, ?_⟩
  · unfold LidarrClient.request
    rw [hsess]
  · unfold LidarrClient.request
    rw [hsess]
  · unfold LidarrClient.request
    rw [hfin]
    simp [h4xx, h6xx]

/-- C4 witness: the amended theorem applied to a fresh client, a stub
answering 500 to every attempt, and a stub whose first response is a final
404. -/
theorem C4_retry_exhaustion_raises_witness :
    ((LidarrClient.init "http://localhost:8686" "key" 3 60 2).request 0 1 "GET"
      (fun _ => (⟨500, none⟩ : HttpResponse Nat))).result =
      .error (.maxRetryError 500) ∧
    ((LidarrClient.init "http://localhost:8686" "key" 3 60 2).request 0 1 "GET"
      (fun _ => (⟨500, none⟩ : HttpResponse Nat))).client =
      LidarrClient.init "http://localhost:8686" "key" 3 60 2 ∧
    ((LidarrClient.init "http://localhost:8686" "key" 3 60 2).request 0 1 "GET"
      (fun _ => (⟨404, none⟩ : HttpResponse Nat))).result =
      .error (.httpError 404) :=
  C4_retry_exhaustion_raises (LidarrClient.init "http://localhost:8686" "key" 3 60 2)
    0 1 (fun _ => ⟨500, none⟩) (fun _ => rfl) (fun _ => ⟨404, none⟩)
    ⟨404, none⟩ "GET" (sessionRequest_ok _ _ _ 0 (by decide)) (by decide) (by decide)

/-- C6 counterexample: a call through the gateway that ends in a transport
error does not mutate `last_request_time` — here a client whose
`last_request_time` is 5 makes a call whose every response is 500, the call
raises, and the post-state still carries 5 (the completion time would have
been 11) — so "mutated by every call through the gateway" is false. -/
theorem C6_counterexample_failed_call_no_mutation :
    ((⟨"u", "k", 60, 0, 1, 5⟩ : LidarrClient).request 10 1 "GET"
      (fun _ => (⟨500, none⟩ : HttpResponse Nat))).result =
      .error (.maxRetryError 500) ∧
    ((⟨"u", "k", 60, 0, 1, 5⟩ : LidarrClient).request 10 1 "GET"
      (fun _ => (⟨500, none⟩ : HttpResponse Nat))).client.last_request_time = 5 ∧
    ((⟨"u", "k", 60, 0, 1, 5⟩ : LidarrClient).request 10 1 "GET"
      (fun _ => (⟨500, none⟩ : HttpResponse Nat))).completion = 11 ∧
    (5 : ℚ) ≠ 11 := by
  have hsess := sessionRequest_all500
    (fun _ => (⟨500, none⟩ : HttpResponse Nat)) (fun _ => rfl) 0 0
  refine ⟨?_, ?_, ?_, by norm_num⟩
  · unfold LidarrClient.request
    rw [hsess]
  · unfold LidarrClient.request
    rw [hsess]
  · unfold LidarrClient.request
    rw [hsess]
    show 10 + rate_limit_sleep 1 5 10 + 1 = 11
    unfold rate_limit_sleep
    norm_num

/-- C6 (amended): `last_request_time` is reset to zero at construction; every
call that completes successfully updates it to the completion time; a call
that raises a transport error leaves the gateway state unchanged; and the
rate-limit sleep is a function of the gateway's `rate_limit` and
`last_request_time` alone — no other gateway state enters it. -/
theorem C6_last_request_time_lifecycle :
    (∀ (u k : String) (n : Nat) (t rps : ℚ),
      (LidarrClient.init u k n t rps).last_request_time = 0) ∧
    (∀ (β : Type) (c : LidarrClient) (now dur : ℚ) (method : String)
        (attempts : Nat → HttpResponse β) (v : Option β),
      (c.request now dur method attempts).result = .ok v →
      (c.request now dur method attempts).client.last_request_time =
        (c.request now dur method attempts).completion) ∧
    (∀ (β : Type) (c : LidarrClient) (now dur : ℚ) (method : String)
        (attempts : Nat → HttpResponse β) (e : TransportError),
      (c.request now dur method attempts).result = .error e →
      (c.request now dur method attempts).client = c) ∧
    (∀ (c₁ c₂ : LidarrClient) (now : ℚ), c₁.rate_limit = c₂.rate_limit →
      c₁.last_request_time = c₂.last_request_time →
      clientSleep c₁ now = clientSleep c₂ now) := by
  refine ⟨fun _ _ _ _ _ => rfl, ?_, ?_, ?_⟩
  · intro β c now dur method attempts v hok
    unfold LidarrClient.request at hok ⊢
    cases hsess : sessionRequest method attempts c.retry_total 0 with
    | error e =>
      simp only [hsess] at hok
      exact absurd hok (by simp)
    | ok r =>
      simp only [hsess] at hok ⊢
      by_cases hst : 400 ≤ r.status ∧ r.status < 600
      · simp only [if_pos hst] at hok
        exact absurd hok (by simp)
      · simp only [if_neg hst]
  · intro β c now dur method attempts e herr
    unfold LidarrClient.request at herr ⊢
    cases hsess : sessionRequest method attempts c.retry_total 0 with
    | error e₂ => simp only [hsess]
    | ok r =>
      simp only [hsess] at herr ⊢
      by_cases hst : 400 ≤ r.status ∧ r.status < 600
      · simp only [if_pos hst]
      · simp only [if_neg hst] at herr
        exact absurd herr (by simp)
  · intro c₁ c₂ now h1 h2
    unfold clientSleep
    rw [h1, h2]

/-- C6 amended-claim witness: a fresh client's `last_request_time` is 0, and a
successful call (status 200) updates it to the call's completion time. -/
theorem C6_last_request_time_lifecycle_witness :
    (LidarrClient.init "http://localhost:8686" "key" 3 60 2).last_request_time
      = 0 ∧
    ((LidarrClient.init "http://localhost:8686" "key" 3 60 2).request 0 1 "GET"
      (fun _ => (⟨200, some 42⟩ : HttpResponse Nat))).client.last_request_time =
    ((LidarrClient.init "http://localhost:8686" "key" 3 60 2).request 0 1 "GET"
      (fun _ => (⟨200, some 42⟩ : HttpResponse Nat))).completion :=
  ⟨C6_last_request_time_lifecycle.1 "http://localhost:8686" "key" 3 60 2,
    C6_last_request_time_lifecycle.2.1 Nat
      (LidarrClient.init "http://localhost:8686" "key" 3 60 2) 0 1 "GET"
      (fun _ => ⟨200, some 42⟩) (some 42) rfl⟩

end LidarrApi
